import Mathlib

/-!
Shallow embedding of the Match Intelligence & Notification Engine of
`src/main.py` (Fakerbot).  Persisted SQLite tables are modelled as total
functions from keys to optional rows; wall-clock instants are integers
counting seconds (the Python code compares `datetime` values, whose
arithmetic is exact at second granularity for the operations used here).
-/

namespace Fakerbot

/-! ### TTL cache (`cache` table, `cache_get` / `cache_set`) -/

/-- The `cache` table: key → (decoded value, expires_at).  The Python code
stores the JSON-serialised value; we keep the decoded payload `α`. -/
abbrev Cache (α : Type) : Type := String → Option (α × Int)

/-- Embeds `cache_get` (src/main.py lines 75–84): look the key up; a row whose
`expires_at < now` is deleted and reported as a miss; otherwise the stored
value is returned.  The updated table is returned alongside the result to
make the `DELETE` side effect explicit. -/
def cache_get {α : Type} (c : Cache α) (now : Int) (k : String) :
    Option α × Cache α :=
  match c k with
  | none => (none, c)
  | some (v, expires_at) =>
    if expires_at < now then
      (none, fun k2 => if k2 = k then none else c k2)
    else
      (some v, c)

/-- Embeds `cache_set` (src/main.py lines 87–93): `INSERT OR REPLACE` with
`expires_at = now + ttl_seconds`. -/
def cache_set {α : Type} (c : Cache α) (now : Int) (k : String) (v : α)
    (ttl_seconds : Int) : Cache α :=
  fun k2 => if k2 = k then some (v, now + ttl_seconds) else c k2

/-! ### Subscriptions (`subscriptions` table) -/

/-- One row of the `subscriptions` table; the SQLite columns are INTEGER
flags holding 0 or 1, kept as `Nat` here. -/
structure SubRow where
  enabled : Nat
  sports : Nat
  esports : Nat
deriving DecidableEq, Repr

/-- The `subscriptions` table keyed by `chat_id`. -/
abbrev Subs : Type := Int → Option SubRow

/-- Embeds `sub_set` (src/main.py lines 96–103): `INSERT OR REPLACE` writing
`enabled` while `COALESCE`-ing `sports` (default 1) and `esports`
(default 0) from the existing row. -/
def sub_set (s : Subs) (chat_id : Int) (enabled : Bool) : Subs :=
  fun c =>
    if c = chat_id then
      some { enabled := if enabled then 1 else 0
             sports := match s chat_id with
                       | some r => r.sports
                       | none => 1
             esports := match s chat_id with
                        | some r => r.esports
                        | none => 0 }
    else s c

/-- Embeds `sub_toggle_domain` (src/main.py lines 106–122): read the current row
(defaults `sports=1`, `esports=0`, `enabled=0` when absent), overwrite the
one flag named by `domain`, and `INSERT OR REPLACE` the whole row.
The Python parameter `on` is spelled `on_flag` here (`on` is reserved). -/
def sub_toggle_domain (s : Subs) (chat_id : Int) (domain : String)
    (on_flag : Bool) : Subs :=
  let sports0 : Nat := match s chat_id with | some r => r.sports | none => 1
  let esports0 : Nat := match s chat_id with | some r => r.esports | none => 0
  let enabled0 : Nat := match s chat_id with | some r => r.enabled | none => 0
  let sports := if domain = "sports" then (if on_flag then 1 else 0) else sports0
  let esports := if domain = "esports" then (if on_flag then 1 else 0) else esports0
  fun c =>
    if c = chat_id then some { enabled := enabled0, sports := sports, esports := esports }
    else s c

/-- Embeds `get_subscriptions_enabled` (src/main.py lines 125–127), which selects the rows
with `enabled=1`; membership of a chat id in that result set. -/
def subscription_enabled (s : Subs) (chat_id : Int) : Bool :=
  match s chat_id with
  | some r => r.enabled == 1
  | none => false

/-! ### Delivered-alert markers (`alerts_sent` table) -/

/-- Embeds `alert_sent` (src/main.py lines 130–133): `SELECT 1 FROM alerts_sent
WHERE id=?` — the table is modelled as the list of recorded ids. -/
def alert_sent (markers : List String) (alert_id : String) : Bool :=
  markers.contains alert_id

/-- Embeds `mark_alert_sent` (src/main.py lines 136–141): insert the id (the
`sent_at` column plays no role in any decision and is omitted). -/
def mark_alert_sent (markers : List String) (alert_id : String) : List String :=
  alert_id :: markers

/-! ### Alert scheduler (`alert_tick`, src/main.py lines 628–703) -/

/-- A normalised match, as produced by the providers (`MatchItem` dataclass,
src/main.py lines 161–166); `start_utc` in epoch seconds. -/
structure MatchItem where
  title : String
  start_utc : Option Int
  league : Option String
deriving DecidableEq, Repr

/-- The per-match time-window test of `alert_tick` (src/main.py lines
666–671 and 688–693): skip a match without a start time, skip one that
began more than `timedelta(minutes=1)` = 60 seconds ago, and fire exactly
when `now_utc <= dt <= now_utc + timedelta(minutes=alert_minutes)`. -/
def match_in_window (start_utc : Option Int) (now_utc : Int)
    (alert_minutes : Int) : Bool :=
  match start_utc with
  | none => false
  | some dt =>
    if dt < now_utc - 60 then false
    else if now_utc ≤ dt ∧ dt ≤ now_utc + alert_minutes * 60 then true
    else false

/-- The deterministic alert id of the sports branch (src/main.py line 672):
`f"s:{sport}:{it.title}:{int(dt.timestamp())}:{chat_id}"`. -/
def sport_alert_id (sport : String) (title : String) (dt : Int)
    (chat_id : Int) : String :=
  "s:" ++ sport ++ ":" ++ title ++ ":" ++ toString dt ++ ":" ++ toString chat_id

/-- One (match, subscriber, domain) evaluation of `alert_tick`
(src/main.py lines 665–681): window test, dedup lookup, marker write
*before* the `send_message` call.  Returns the updated marker table and
whether a notification dispatch was attempted. -/
def eval_sport_alert (markers : List String) (sport : String)
    (it : MatchItem) (now_utc : Int) (alert_minutes : Int)
    (chat_id : Int) : List String × Bool :=
  match it.start_utc with
  | none => (markers, false)
  | some dt =>
    if dt < now_utc - 60 then (markers, false)
    else if now_utc ≤ dt ∧ dt ≤ now_utc + alert_minutes * 60 then
      let alert_id := sport_alert_id sport it.title dt chat_id
      if alert_sent markers alert_id then (markers, false)
      else (mark_alert_sent markers alert_id, true)
    else (markers, false)

/-- A sequence of scheduler ticks (one evaluation of the same
(match, subscriber, domain) tuple per tick, at the given tick times)
sharing the durable marker table; returns the final marker table and the
number of notification dispatches attempted. -/
def run_sport_alert_ticks (markers : List String) (sport : String)
    (it : MatchItem) (alert_minutes : Int) (chat_id : Int) :
    List Int → List String × Nat
  | [] => (markers, 0)
  | now_utc :: rest =>
    let r := eval_sport_alert markers sport it now_utc alert_minutes chat_id
    let k := run_sport_alert_ticks r.fst sport it alert_minutes chat_id rest
    (k.fst, (if r.snd then 1 else 0) + k.snd)

/-! ### Sports provider (`sports_today` and `_form_from_events`) -/

/-- One event of a TheSportsDB payload, with exactly the fields the code
touches plus the team-id fields the payload carries (the code never reads
them).  Scores that arrive missing or non-numeric (the `int(...)` parse
in `_form_from_events` fails) are `none`. -/
structure SportEvent where
  strHomeTeam : Option String
  strAwayTeam : Option String
  intHomeScore : Option Int
  intAwayScore : Option Int
  idHomeTeam : Option String
  idAwayTeam : Option String
deriving DecidableEq, Repr

/-- A decoded TheSportsDB `eventsday.php` payload as cached by
`sports_today`: the `events` field may be absent/null. -/
structure TsdbData where
  events : Option (List SportEvent)
deriving DecidableEq, Repr

/-- Embeds `events = data.get("events") or []` (src/main.py line 189). -/
def tsdb_events (data : TsdbData) : List SportEvent :=
  data.events.getD []

/-- The cache interaction of `sports_today` (src/main.py lines 176–187):
read the cache (with its lazy-expiry delete), on a miss run the fetch —
whose outcome is passed in as an `Except`, a raised exception propagating
before any `cache_set` — and store the raw payload with a 60 second TTL.
Returns the payload (or the propagated error) and the updated cache. -/
def sports_today_model (c : Cache TsdbData) (now : Int) (cache_key : String)
    (fetch : Except Unit TsdbData) : Except Unit TsdbData × Cache TsdbData :=
  let g := cache_get c now cache_key
  match g.fst with
  | some data => (.ok data, g.snd)
  | none =>
    match fetch with
    | .error e => (.error e, g.snd)
    | .ok data => (.ok data, cache_set g.snd now cache_key data 60)

/-! ### Form aggregation (`_form_from_events`, src/main.py lines 234–269) -/

/-- Python's `str.lower()` as used on team names (ASCII case folding;
the names compared in `_form_from_events` are provider team names). -/
def pyLower (s : String) : String :=
  String.mk (s.data.map Char.toLower)

/-- One iteration of the `_form_from_events` loop: given the lowercased
queried team name, classify one event.  `none` when the event is skipped
(missing/unparsable score); otherwise the W/D/L letter and the summary
line.  The home/away side of the queried team is decided by comparing the
lowercased home display name with the queried name — ids are not read. -/
def formStep (team : String) (e : SportEvent) : Option (String × String) :=
  let h := e.strHomeTeam.getD ""
  let a := e.strAwayTeam.getD ""
  match e.intHomeScore, e.intAwayScore with
  | some hs, some a_ =>
    let is_home := pyLower h == team
    let gf := if is_home then hs else a_
    let ga := if is_home then a_ else hs
    let ch := if gf > ga then "W" else if gf < ga then "L" else "D"
    some (ch, h ++ " " ++ toString hs ++ "-" ++ toString a_ ++ " " ++ a)
  | _, _ => none

/-- Embeds `_form_from_events` (src/main.py lines 234–269): iterate over
`events[:5]`, skip events without parsable scores, and return the joined
W/D/L form string (`"N/A"` when empty) and the newline-joined summary
lines (a fixed Korean message when empty). -/
def _form_from_events (events : List SportEvent) (team_name : String) :
    String × String :=
  let team := pyLower team_name
  let results := (events.take 5).filterMap (formStep team)
  let form := String.join (results.map Prod.fst)
  let lines := String.intercalate "\n" (results.map Prod.snd)
  (if form = "" then "N/A" else form,
   if results = [] then "최근 경기 데이터 없음" else lines)

/-! ### Match analysis (`sports_analyze_match`, src/main.py lines 272–310) -/

/-- Embeds `score_map = {"W": 3, "D": 1, "L": 0}` with `.get(x, 0)`
(src/main.py lines 289–291). -/
def score_map (x : Char) : Nat :=
  if x = 'W' then 3 else if x = 'D' then 1 else 0

/-- Embeds `sum(score_map.get(x, 0) for x in f if x in score_map)`
(src/main.py lines 290–291) over a form string. -/
def form_score (f : String) : Nat :=
  ((f.toList.filter fun x => x == 'W' || x == 'D' || x == 'L').map score_map).sum

/-- The three possible verdicts of `sports_analyze_match`
(src/main.py lines 293–298): team 1 favoured, team 2 favoured, or close. -/
inductive Verdict where
  | t1Favored
  | t2Favored
  | close
deriving DecidableEq, Repr

/-- The verdict decision of `sports_analyze_match` (src/main.py lines
293–298): `if s1 > s2 + 2 … elif s2 > s1 + 2 … else` close. -/
def analyze_verdict (s1 s2 : Nat) : Verdict :=
  if s1 > s2 + 2 then .t1Favored
  else if s2 > s1 + 2 then .t2Favored
  else .close

/-! ## Claim theorems -/

/-! ### C1 — alert time window -/

/-- C1, counterexample to the claim as stated: a match that started 30
seconds before the tick does NOT fire.  It survives the 60-second grace
skip but fails the `now_utc ≤ dt` half of the fire condition, so the
scheduler never notifies about an already-started match. -/
theorem c1_started_30s_ago_does_not_fire :
    match_in_window (some 970) 1000 10 = false := by decide

/-- C1 (amended): `alert_tick` fires exactly for
`now ≤ matchStart ≤ now + alertMinutes·60`; a missing start time never
fires; with the 10-minute lead a match starting exactly at `now + 600`
qualifies, one at `now + 601` does not, one that started 61 seconds ago
does not, and one that started 30 seconds ago does not either. -/
theorem c1_window_characterisation : ∀ (now_utc dt alert_minutes : Int),
    (match_in_window (some dt) now_utc alert_minutes = true ↔
      now_utc ≤ dt ∧ dt ≤ now_utc + alert_minutes * 60)
    ∧ match_in_window none now_utc alert_minutes = false
    ∧ match_in_window (some (now_utc + 600)) now_utc 10 = true
    ∧ match_in_window (some (now_utc + 601)) now_utc 10 = false
    ∧ match_in_window (some (now_utc - 61)) now_utc 10 = false
    ∧ match_in_window (some (now_utc - 30)) now_utc 10 = false := by
  intro now_utc dt alert_minutes
  have key : ∀ (d lead : Int), match_in_window (some d) now_utc lead = true ↔
      now_utc ≤ d ∧ d ≤ now_utc + lead * 60 := by
    intro d lead
    simp only [match_in_window]
    constructor
    · intro h
      split_ifs at h with h1 h2 <;> simp_all

    · intro h
      rw [if_neg (by omega), if_pos h]
  have keyf : ∀ (d lead : Int),
      ¬(now_utc ≤ d ∧ d ≤ now_utc + lead * 60) →
      match_in_window (some d) now_utc lead = false := by
    intro d lead hn
    cases hb : match_in_window (some d) now_utc lead with
    | false => rfl
    | true => exact absurd ((key d lead).mp hb) hn
  exact ⟨key dt alert_minutes, rfl, (key _ 10).mpr ⟨by omega, by omega⟩,
    keyf _ 10 (by omega), keyf _ 10 (by omega), keyf _ 10 (by omega)⟩

/-! ### C2 — at-most-once alert delivery -/

/-- If the marker for the match tuple is already recorded, the per-match
evaluation changes nothing and attempts no dispatch. -/
theorem eval_sport_alert_skip_of_sent (markers : List String)
    (sport : String) (it : MatchItem) (now_utc alert_minutes chat_id dt : Int)
    (hdt : it.start_utc = some dt)
    (hmem : alert_sent markers (sport_alert_id sport it.title dt chat_id) = true) :
    eval_sport_alert markers sport it now_utc alert_minutes chat_id
      = (markers, false) := by
  simp only [eval_sport_alert, hdt]
  split_ifs <;> simp_all

/-- If no dispatch was attempted, the marker table is unchanged. -/
theorem eval_sport_alert_fst_of_no_attempt (markers : List String)
    (sport : String) (it : MatchItem) (now_utc alert_minutes chat_id : Int)
    (h : (eval_sport_alert markers sport it now_utc alert_minutes chat_id).snd
          = false) :
    (eval_sport_alert markers sport it now_utc alert_minutes chat_id).fst
      = markers := by
  cases hdt : it.start_utc with
  | none => simp only [eval_sport_alert, hdt]
  | some dt =>
    simp only [eval_sport_alert, hdt] at h ⊢
    split_ifs at h ⊢ <;> simp_all

/-- If a dispatch was attempted, the marker is recorded afterwards. -/
theorem eval_sport_alert_marks (markers : List String) (sport : String)
    (it : MatchItem) (now_utc alert_minutes chat_id dt : Int)
    (hdt : it.start_utc = some dt)
    (h : (eval_sport_alert markers sport it now_utc alert_minutes chat_id).snd
          = true) :
    alert_sent
      (eval_sport_alert markers sport it now_utc alert_minutes chat_id).fst
      (sport_alert_id sport it.title dt chat_id) = true := by
  simp only [eval_sport_alert, hdt] at h ⊢
  split_ifs at h ⊢ <;> simp_all [alert_sent, mark_alert_sent]

/-- Once the marker is recorded, any sequence of later ticks attempts
nothing more and leaves the marker table unchanged. -/
theorem run_sport_alert_ticks_zero_of_sent (sport : String) (it : MatchItem)
    (alert_minutes chat_id dt : Int) (hdt : it.start_utc = some dt) :
    ∀ (nows : List Int) (markers : List String),
      alert_sent markers (sport_alert_id sport it.title dt chat_id) = true →
      run_sport_alert_ticks markers sport it alert_minutes chat_id nows
        = (markers, 0)
  | [], _, _ => rfl
  | now_utc :: rest, markers, hmem => by
    have hskip := eval_sport_alert_skip_of_sent markers sport it now_utc
      alert_minutes chat_id dt hdt hmem
    have hrest := run_sport_alert_ticks_zero_of_sent sport it alert_minutes
      chat_id dt hdt rest markers hmem
    simp only [run_sport_alert_ticks, hskip, hrest]
    simp

/-- A match without a start time never produces an attempt. -/
theorem run_sport_alert_ticks_zero_of_no_start (sport : String)
    (it : MatchItem) (alert_minutes chat_id : Int)
    (hdt : it.start_utc = none) :
    ∀ (nows : List Int) (markers : List String),
      run_sport_alert_ticks markers sport it alert_minutes chat_id nows
        = (markers, 0)
  | [], _ => rfl
  | now_utc :: rest, markers => by
    have heval : eval_sport_alert markers sport it now_utc alert_minutes
        chat_id = (markers, false) := by
      simp only [eval_sport_alert, hdt]
    have hrest := run_sport_alert_ticks_zero_of_no_start sport it
      alert_minutes chat_id hdt rest markers
    simp only [run_sport_alert_ticks, heval, hrest]
    simp

/-- C2 (confirmed): for every (match, subscriber, domain) tuple and every
sequence of scheduler ticks sharing the durable marker table, at most one
notification dispatch is ever attempted — the evaluation skips when the
deterministic alert id is already recorded, and it records the id before
the dispatch, so even a failed dispatch is never retried on a later
tick. -/
theorem c2_at_most_once_delivery : ∀ (markers : List String)
    (sport : String) (it : MatchItem) (alert_minutes chat_id : Int)
    (nows : List Int),
    (run_sport_alert_ticks markers sport it alert_minutes chat_id nows).snd
      ≤ 1 := by
  intro markers sport it alert_minutes chat_id nows
  cases hdt : it.start_utc with
  | none =>
    rw [run_sport_alert_ticks_zero_of_no_start sport it alert_minutes chat_id
      hdt nows markers]
    simp
  | some dt =>
    induction nows generalizing markers with
    | nil => simp [run_sport_alert_ticks]
    | cons now_utc rest ih =>
      simp only [run_sport_alert_ticks]
      cases hsnd : (eval_sport_alert markers sport it now_utc alert_minutes
          chat_id).snd with
      | false =>
        rw [eval_sport_alert_fst_of_no_attempt markers sport it now_utc
          alert_minutes chat_id hsnd]
        simpa using ih markers
      | true =>
        have hmem := eval_sport_alert_marks markers sport it now_utc
          alert_minutes chat_id dt hdt hsnd
        rw [run_sport_alert_ticks_zero_of_sent sport it alert_minutes chat_id
          dt hdt rest _ hmem]
        simp

/-! ### C3 — lazy cache expiry -/

/-- C3, counterexample to the claim as stated: an entry whose
`expires_at` *equals* `now` is still served and kept — `cache_get`
expires with a strict `expires_at < now`, so `now = expiresAt` is a hit,
not a miss, and the row is not deleted. -/
theorem c3_expiry_boundary_counterexample :
    (cache_get (cache_set (fun _ => none) 90 "k" (42 : Nat) 10) 100 "k").fst
      = some 42
    ∧ (cache_get (cache_set (fun _ => none) 90 "k" (42 : Nat) 10) 100 "k").snd
        "k" = some (42, 100) := by
  constructor <;> decide

/-- C3 (amended): when `now > expiresAt` strictly, `cache_get` misses,
deletes the stored row as a side effect of the read, and leaves every
other key untouched.  (At `now = expiresAt` the code still serves the
entry; the spec boundary `now ≥ expiresAt` is off by one second.) -/
theorem c3_expired_read_is_miss_and_delete {α : Type} (c : Cache α)
    (now : Int) (k : String) (v : α) (ea : Int)
    (hrow : c k = some (v, ea)) (hexp : ea < now) :
    (cache_get c now k).fst = none
    ∧ (cache_get c now k).snd k = none
    ∧ ∀ k2, k2 ≠ k → (cache_get c now k).snd k2 = c k2 := by
  simp only [cache_get, hrow]
  rw [if_pos hexp]
  exact ⟨rfl, by simp, fun k2 h => by simp [h]⟩

/-- Witness for C3 (amended) at a concrete expired entry. -/
theorem c3_expired_read_witness :
    (cache_get (cache_set (fun _ => none) 0 "k" (7 : Nat) 10) 11 "k").fst
      = none
    ∧ (cache_get (cache_set (fun _ => none) 0 "k" (7 : Nat) 10) 11 "k").snd
        "k" = none :=
  ⟨(c3_expired_read_is_miss_and_delete _ 11 "k" 7 10 (by decide)
      (by decide)).1,
   (c3_expired_read_is_miss_and_delete _ 11 "k" 7 10 (by decide)
      (by decide)).2.1⟩

/-! ### C4 — cache round trip and fresh refill -/

/-- C4 (confirmed): with `ttl > 0`, a `cache_get` immediately after
`cache_set` returns the stored value; once the entry's `expires_at` has
passed, the read misses, and a subsequent `cache_set` with a fresh TTL is
a normal fill whose value the next `cache_get` returns. -/
theorem c4_cache_roundtrip {α : Type} (c : Cache α) (now : Int) (k : String)
    (v : α) (ttl : Int) (httl : 0 < ttl) :
    (cache_get (cache_set c now k v ttl) now k).fst = some v
    ∧ ∀ (now2 : Int) (v2 : α) (ttl2 : Int), now + ttl < now2 → 0 < ttl2 →
        (cache_get (cache_set c now k v ttl) now2 k).fst = none
        ∧ (cache_get
            (cache_set
              (cache_get (cache_set c now k v ttl) now2 k).snd
              now2 k v2 ttl2)
            now2 k).fst = some v2 := by
  have hk : (cache_set c now k v ttl) k = some (v, now + ttl) := by
    simp [cache_set]
  constructor
  · simp only [cache_get, hk]
    rw [if_neg (by omega)]
  · intro now2 v2 ttl2 hpast httl2
    have hmiss : cache_get (cache_set c now k v ttl) now2 k
        = (none, fun k2 => if k2 = k then none
                           else (cache_set c now k v ttl) k2) := by
      simp only [cache_get, hk]
      rw [if_pos (by omega)]
    have hsnd : (cache_get (cache_set c now k v ttl) now2 k).snd
        = fun k2 => if k2 = k then none
                    else (cache_set c now k v ttl) k2 := by
      rw [hmiss]
    refine ⟨by rw [hmiss], ?_⟩
    rw [hsnd]
    have hk2 : (cache_set
        (fun k2 => if k2 = k then none else (cache_set c now k v ttl) k2)
        now2 k v2 ttl2) k = some (v2, now2 + ttl2) := by
      simp [cache_set]
    simp only [cache_get, hk2]
    rw [if_neg (by omega)]

/-- Witness for C4 at a concrete store, key and clock. -/
theorem c4_cache_roundtrip_witness :
    (cache_get (cache_set (fun _ => none : Cache Nat) 0 "k" 5 60) 0 "k").fst
      = some 5
    ∧ (cache_get (cache_set (fun _ => none : Cache Nat) 0 "k" 5 60) 100
        "k").fst = none
    ∧ (cache_get
        (cache_set
          (cache_get (cache_set (fun _ => none : Cache Nat) 0 "k" 5 60) 100
            "k").snd
          100 "k" 9 60)
        100 "k").fst = some 9 :=
  ⟨(c4_cache_roundtrip _ 0 "k" 5 60 (by decide)).1,
   ((c4_cache_roundtrip _ 0 "k" 5 60 (by decide)).2 100 9 60 (by decide)
      (by decide)).1,
   ((c4_cache_roundtrip _ 0 "k" 5 60 (by decide)).2 100 9 60 (by decide)
      (by decide)).2⟩

/-! ### Concrete provider histories used by the form/analysis claims -/

/-- A finished 1-0 home win of `home` against a fixed opponent. -/
def homeWin (home : String) : SportEvent :=
  ⟨some home, some "Opp", some 1, some 0, some "10", some "20"⟩

/-- A finished 0-1 home loss of `home`. -/
def homeLoss (home : String) : SportEvent :=
  ⟨some home, some "Opp", some 0, some 1, some "10", some "20"⟩

/-- A not-yet-scored fixture of `home` (the score fields are null). -/
def homeUnplayed (home : String) : SportEvent :=
  ⟨some home, some "Opp", none, none, some "10", some "20"⟩

/-! ### C5 — win-probability estimator -/

/-- Team Alpha's history, newest first: last five W W W L L, older five
all wins — 8 wins in 10 finished matches (recent form 0.8 over N=10). -/
def evA_c5 : List SportEvent :=
  [homeWin "Alpha", homeWin "Alpha", homeWin "Alpha",
   homeLoss "Alpha", homeLoss "Alpha",
   homeWin "Alpha", homeWin "Alpha", homeWin "Alpha",
   homeWin "Alpha", homeWin "Alpha"]

/-- Team Beta's history, newest first: last five W W W L L, older five
all losses — 3 wins in 10 finished matches (recent form 0.3 over N=10). -/
def evB_c5 : List SportEvent :=
  [homeWin "Beta", homeWin "Beta", homeWin "Beta",
   homeLoss "Beta", homeLoss "Beta",
   homeLoss "Beta", homeLoss "Beta", homeLoss "Beta",
   homeLoss "Beta", homeLoss "Beta"]

/-- C5, counterexample to the claim as stated: on histories realising
exactly the scenario's form stats — Alpha 8 wins in 10 (win rate 0.8),
Beta 3 wins in 10 (win rate 0.3) — the analysis of
`sports_analyze_match` produces the verdict "close" (박빙): no pick of
team A, no 0.7567 probability, no "strong" label.  The code compares
five-match W/D/L scores (both 9 here); it computes no rawScore, shrink or
sigmoid. -/
theorem c5_no_probability_estimator_counterexample :
    (evA_c5.filterMap (formStep "alpha")).length = 10
    ∧ ((evA_c5.filterMap (formStep "alpha")).filter
        (fun r => r.fst == "W")).length = 8
    ∧ (evB_c5.filterMap (formStep "beta")).length = 10
    ∧ ((evB_c5.filterMap (formStep "beta")).filter
        (fun r => r.fst == "W")).length = 3
    ∧ form_score (_form_from_events evA_c5 "Alpha").fst = 9
    ∧ form_score (_form_from_events evB_c5 "Beta").fst = 9
    ∧ analyze_verdict (form_score (_form_from_events evA_c5 "Alpha").fst)
        (form_score (_form_from_events evB_c5 "Beta").fst)
      = Verdict.close := by decide

/-- C5 (amended): the source has no probability estimator; the decision
of `sports_analyze_match` is the pure form-score comparison — a team is
declared favoured exactly when its five-match W/D/L score (W=3, D=1,
L=0) exceeds the other's by more than 2, "close" otherwise — and the
all-wins form string scores 15. -/
theorem c5_form_score_comparison : ∀ (s1 s2 : Nat),
    (analyze_verdict s1 s2 = Verdict.t1Favored ↔ s1 > s2 + 2)
    ∧ (analyze_verdict s1 s2 = Verdict.t2Favored ↔ s2 > s1 + 2)
    ∧ (analyze_verdict s1 s2 = Verdict.close ↔ (s1 ≤ s2 + 2 ∧ s2 ≤ s1 + 2))
    ∧ form_score "WWWWW" = 15 := by
  intro s1 s2
  unfold analyze_verdict
  refine ⟨?_, ?_, ?_, by decide⟩ <;>
    split_ifs with h1 h2 <;> simp_all <;> omega

/-! ### C7 — team identity by id vs. by name -/

/-- A finished 2-0 fixture, home side id 133604 named "Arsenal". -/
def e1_c7 : SportEvent :=
  ⟨some "Arsenal", some "Chelsea", some 2, some 0,
   some "133604", some "133610"⟩

/-- The same fixture and the same ids, the home name spelled
"Arsenal FC". -/
def e2_c7 : SportEvent :=
  ⟨some "Arsenal FC", some "Chelsea", some 2, some 0,
   some "133604", some "133610"⟩

/-- C7, counterexample to the claim as stated: two records with the very
same team ids are attributed differently because only the home
display-name spelling differs — the first is classified "W" (the queried
team recognised as the home side by name), the second "L" (the
unmatched name silently makes the queried team the away side). -/
theorem c7_name_based_attribution_counterexample :
    e1_c7.idHomeTeam = e2_c7.idHomeTeam
    ∧ e1_c7.idAwayTeam = e2_c7.idAwayTeam
    ∧ (_form_from_events [e1_c7] "Arsenal").fst = "W"
    ∧ (_form_from_events [e2_c7] "Arsenal").fst = "L" := by decide

/-- The classification step never reads the id fields, over any prefix
window of the scan. -/
theorem formStep_ignores_ids (t : String) (hid aid : Option String) :
    ∀ (n : Nat) (l : List SportEvent),
      ((l.map fun e =>
          { e with idHomeTeam := hid, idAwayTeam := aid }).take n).filterMap
          (formStep t)
        = (l.take n).filterMap (formStep t)
  | _, [] => by simp
  | 0, _ :: _ => rfl
  | n + 1, e :: es => by
    have h1 : formStep t { e with idHomeTeam := hid, idAwayTeam := aid }
        = formStep t e := rfl
    simp only [List.map_cons, List.take_succ_cons, List.filterMap_cons, h1,
      formStep_ignores_ids t hid aid n es]

/-- C7 (amended): aggregation attributes a record by case-insensitive
comparison of the home display name with the queried team name (an
unmatched home name makes the team the away side); the provider's
team-id fields are never consulted — the whole form computation is
invariant under arbitrary replacement of every id field. -/
theorem c7_ids_never_consulted : ∀ (events : List SportEvent)
    (team_name : String) (hid aid : Option String),
    _form_from_events
        (events.map fun e => { e with idHomeTeam := hid, idAwayTeam := aid })
        team_name
      = _form_from_events events team_name := by
  intro events team_name hid aid
  simp only [_form_from_events]
  rw [formStep_ignores_ids]

/-! ### C8 — recent-form scan bound -/

/-- Six-event history: the newest fixture is not yet scored, followed by
five finished wins — five qualifying records exist in the history. -/
def ev6_c8 : List SportEvent :=
  homeUnplayed "Alpha" ::
    [homeWin "Alpha", homeWin "Alpha", homeWin "Alpha",
     homeWin "Alpha", homeWin "Alpha"]

/-- Five finished wins of team Alpha, newest first. -/
def ev5_c8 : List SportEvent :=
  [homeWin "Alpha", homeWin "Alpha", homeWin "Alpha",
   homeWin "Alpha", homeWin "Alpha"]

/-- C8, counterexample to the claim as stated: with one unscored fixture
in front of five finished wins, five qualifying matches exist, yet only
four are counted — the `events[:5]` bound applies to the *position* in
the history, not to the count of qualifying matches (and the result is a
W/D/L string, not a `(wins, played, winRate)` tuple). -/
theorem c8_positional_bound_counterexample :
    (ev6_c8.filterMap (formStep "alpha")).length = 5
    ∧ (_form_from_events ev6_c8 "Alpha").fst = "WWWW" := by decide

/-- C8 (amended): the scan examines exactly the first five records by
position (`events[:5]`), skipping unscored records inside that window;
an empty history yields the `"N/A"` form and the fixed no-data message,
and five finished all-won matches yield `"WWWWW"`. -/
theorem c8_first_five_positions : ∀ (events : List SportEvent)
    (team_name : String),
    _form_from_events events team_name
      = _form_from_events (events.take 5) team_name
    ∧ _form_from_events [] team_name = ("N/A", "최근 경기 데이터 없음")
    ∧ (_form_from_events ev5_c8 "Alpha").fst = "WWWWW" := by
  intro events team_name
  refine ⟨?_, rfl, by decide⟩
  simp only [_form_from_events, List.take_take, Nat.min_self]

/-! ### C9 — negative caching of empty provider results -/

/-- C9, counterexample to the claim as stated: a successful fetch whose
payload decodes to zero matches IS stored in the cache with the 60 s
TTL, and a second invocation inside the TTL is served the cached empty
payload without re-attempting the upstream call — the second invocation
here would fail if it fetched, yet it succeeds from the cache. -/
theorem c9_empty_result_cached_counterexample :
    tsdb_events ⟨some []⟩ = []
    ∧ (sports_today_model (fun _ => none) 0 "tsdb:eventsday:Soccer:2026-10-12"
        (Except.ok ⟨some []⟩)).snd "tsdb:eventsday:Soccer:2026-10-12"
      = some (⟨some []⟩, 60)
    ∧ (sports_today_model
        (sports_today_model (fun _ => none) 0
          "tsdb:eventsday:Soccer:2026-10-12" (Except.ok ⟨some []⟩)).snd
        30 "tsdb:eventsday:Soccer:2026-10-12" (Except.error ())).fst
      = Except.ok ⟨some []⟩ :=
  ⟨rfl, rfl, rfl⟩

/-- C9 (amended): on a cache miss `sports_today` stores whatever payload
a successful fetch returns — including one decoding to zero matches —
with a 60-second TTL; a provider error propagates before `cache_set`,
leaving the cache unchanged, so errors (unlike empty results) are never
cached. -/
theorem c9_unconditional_payload_caching : ∀ (c : Cache TsdbData)
    (now : Int) (cache_key : String) (data : TsdbData),
    (c cache_key = none →
      (sports_today_model c now cache_key (Except.ok data)).snd cache_key
        = some (data, now + 60)
      ∧ (sports_today_model c now cache_key (Except.ok data)).fst
        = Except.ok data)
    ∧ (c cache_key = none →
      sports_today_model c now cache_key (Except.error ())
        = (Except.error (), c)) := by
  intro c now cache_key data
  constructor
  · intro hmiss
    have hget : cache_get c now cache_key = (none, c) := by
      simp only [cache_get, hmiss]
    constructor
    · simp only [sports_today_model, hget]
      simp [cache_set]
    · simp only [sports_today_model, hget]
  · intro hmiss
    have hget : cache_get c now cache_key = (none, c) := by
      simp only [cache_get, hmiss]
    simp only [sports_today_model, hget]

/-- Witness for C9 (amended) at a concrete cache, clock and payload. -/
theorem c9_unconditional_payload_caching_witness :
    (sports_today_model (fun _ => none) 5 "k" (Except.ok ⟨none⟩)).snd "k"
      = some (⟨none⟩, 65)
    ∧ sports_today_model (fun _ => none) 5 "k" (Except.error ())
      = (Except.error (), (fun _ => none)) :=
  ⟨((c9_unconditional_payload_caching (fun _ => none) 5 "k" ⟨none⟩).1 rfl).1,
   (c9_unconditional_payload_caching (fun _ => none) 5 "k" ⟨none⟩).2 rfl⟩

/-! ### C6 — upserts preserve sibling columns -/

/-- C6 (confirmed): a subscription upsert that changes one field leaves
the sibling columns unchanged — toggling only `esports` keeps `enabled`
and `sports` as they were, `sub_set` keeps `sports` and `esports` — and
on first creation the defaults are `sports = 1`, `esports = 0`. -/
theorem c6_upsert_preserves_siblings : ∀ (s : Subs) (chat_id : Int)
    (r : SubRow) (e on_flag : Bool),
    (s chat_id = some r →
      (sub_toggle_domain s chat_id "esports" on_flag) chat_id
        = some ⟨r.enabled, r.sports, if on_flag then 1 else 0⟩
      ∧ (sub_set s chat_id e) chat_id
        = some ⟨if e then 1 else 0, r.sports, r.esports⟩)
    ∧ (s chat_id = none →
      (sub_set s chat_id e) chat_id = some ⟨if e then 1 else 0, 1, 0⟩
      ∧ (sub_toggle_domain s chat_id "esports" on_flag) chat_id
        = some ⟨0, 1, if on_flag then 1 else 0⟩) := by
  intro s chat_id r e on_flag
  constructor
  · intro h
    constructor
    · simp [sub_toggle_domain, h]
    · simp [sub_set, h]
  · intro h
    constructor
    · simp [sub_set, h]
    · simp [sub_toggle_domain, h]

/-- A subscriptions table holding one row: chat 5, enabled, sports on,
esports off. -/
def subs1_c6 : Subs := fun c => if c = 5 then some ⟨1, 1, 0⟩ else none

/-- Witness for C6: flipping only `esports=on` for chat 5 (which has
`sports=on`) leaves `sports=on` intact; `sub_set` preserves both flags;
creation via `sub_set` uses the defaults. -/
theorem c6_upsert_preserves_siblings_witness :
    (sub_toggle_domain subs1_c6 5 "esports" true) 5 = some ⟨1, 1, 1⟩
    ∧ (sub_set subs1_c6 5 true) 5 = some ⟨1, 1, 0⟩
    ∧ (sub_set (fun _ => none) 7 true) 7 = some ⟨1, 1, 0⟩ :=
  ⟨((c6_upsert_preserves_siblings subs1_c6 5 ⟨1, 1, 0⟩ true true).1
      (by decide)).1,
   ((c6_upsert_preserves_siblings subs1_c6 5 ⟨1, 1, 0⟩ true true).1
      (by decide)).2,
   ((c6_upsert_preserves_siblings (fun _ => none) 7 ⟨0, 0, 0⟩ true
      true).2 rfl).1⟩

/-! ### C10 — toggling a domain never enables alerts -/

/-- C10 (confirmed): toggling a domain flag for a chat with no
subscription row creates the row with `enabled = 0` (the untouched
sibling flag staying at its default), so the chat does not appear among
the enabled subscriptions; a separate `sub_set(chat_id, enabled=true)`
is what makes it appear. -/
theorem c10_toggle_does_not_enable : ∀ (s : Subs) (chat_id : Int)
    (domain : String) (on_flag : Bool),
    s chat_id = none →
    subscription_enabled (sub_toggle_domain s chat_id domain on_flag)
        chat_id = false
    ∧ (sub_toggle_domain s chat_id "esports" on_flag) chat_id
        = some ⟨0, 1, if on_flag then 1 else 0⟩
    ∧ subscription_enabled
        (sub_set (sub_toggle_domain s chat_id domain on_flag) chat_id true)
        chat_id = true := by
  intro s chat_id domain on_flag h
  refine ⟨?_, by simp [sub_toggle_domain, h], ?_⟩
  · simp [subscription_enabled, sub_toggle_domain, h]
  · simp [subscription_enabled, sub_set, sub_toggle_domain, h]

/-- Witness for C10: on an empty table, `.alert esports on` alone leaves
chat 9 out of the enabled set; a following `.alert on` brings it in. -/
theorem c10_toggle_does_not_enable_witness :
    subscription_enabled
        (sub_toggle_domain (fun _ => none) 9 "esports" true) 9 = false
    ∧ subscription_enabled
        (sub_set (sub_toggle_domain (fun _ => none) 9 "esports" true) 9 true)
        9 = true :=
  ⟨(c10_toggle_does_not_enable (fun _ => none) 9 "esports" true rfl).1,
   (c10_toggle_does_not_enable (fun _ => none) 9 "esports" true rfl).2.2⟩

end Fakerbot
